import Mathlib

/-!
Shallow embedding of the WeMediaSpider repository (directory src/spider) in Lean 4,
together with theorems settling the frozen claims about its specification.

Embedded components:
* the storage layer: class SQLiteDatabase of spider/db/sqlite.py and class
  DatabaseORM of spider/db/interface.py, both over one explicit database state;
* the scraper: classes WeChatScraper and BatchWeChatScraper of
  spider/wechat/scraper.py, with network fetches supplied by an explicit oracle;
* the login cache decision logic of class WeChatSpiderLogin in
  spider/wechat/login.py, with the liveness probe outcome supplied explicitly.

Modelling conventions: machine time (time.time, datetime.now) is passed as an
explicit integer argument; Python dicts become association lists; Python None
or missing optional arguments become Option.none; timestamps follow the UTC
epoch convention (the local-timezone offset of datetime.fromtimestamp and
datetime.timestamp is not modelled, it shifts every conversion uniformly).
-/

namespace WeMediaSpider

/-- Value of a list of decimal digit characters, most significant first. -/
def digitsToNat (ds : List Char) : Nat :=
  List.foldl (fun acc c => acc * 10 + (c.toNat - 48)) 0 ds

/-- Consume one expected literal character. -/
def expectChar (c : Char) (cs : List Char) : Option (List Char) :=
  match cs with
  | [] => none
  | x :: rest => if x = c then some rest else none

/-- Whitespace as matched by a backslash-s atom of the re module on str
    patterns: the characters Python str.isspace accepts (ASCII whitespace
    0x09-0x0d, the control characters 0x1c-0x1f, space, next line 0x85,
    no-break space 0xa0, and the Unicode space separators). -/
def isPySpace (c : Char) : Bool :=
  (9 ≤ c.toNat ∧ c.toNat ≤ 13) ∨ (28 ≤ c.toNat ∧ c.toNat ≤ 31)
  ∨ c.toNat = 32 ∨ c.toNat = 133 ∨ c.toNat = 160 ∨ c.toNat = 0x1680
  ∨ (0x2000 ≤ c.toNat ∧ c.toNat ≤ 0x200a) ∨ c.toNat = 0x2028
  ∨ c.toNat = 0x2029 ∨ c.toNat = 0x202f ∨ c.toNat = 0x205f
  ∨ c.toNat = 0x3000

/-- Drop a maximal run of whitespace characters. -/
def skipWs : List Char → List Char
  | c :: rest => if isPySpace c then skipWs rest else c :: rest
  | [] => []

/-- One-or-more whitespace: _strptime compiles literal whitespace of the
    format string to a backslash-s-plus atom, so at least one whitespace
    character is required and any further run is consumed greedily (no
    following token of this format can match whitespace, so greediness is
    exact). -/
def parseWs1 (cs : List Char) : Option (List Char) :=
  match cs with
  | c :: rest => if isPySpace c then some (skipWs rest) else none
  | [] => none

/-- Exactly four decimal digits: the %Y directive of _strptime compiles to
    four backslash-d atoms, no fewer and no more (a fifth digit is left for
    the next token, which in this format is a literal dash and fails). -/
def parse4Digits (cs : List Char) : Option (Nat × List Char) :=
  match cs with
  | a :: b :: c :: d :: rest =>
    if a.isDigit ∧ b.isDigit ∧ c.isDigit ∧ d.isDigit then
      some (digitsToNat [a, b, c, d], rest)
    else none
  | _ => none

/-- Two-or-one-digit numeric directive of _strptime: the two-digit regex
    alternatives accept exactly the values lo2..hi2 (month 01-12, day 01-31,
    hour 00-23, minute 00-59, second 00-61), the single-digit alternative
    accepts lo1..9 (month and day start at 1, the time fields at 0). When two
    digits are present but their value is outside lo2..hi2 the regex
    backtracks to the single-digit alternative, leaving the second digit for
    the next token — which in this format is a separator or end of string and
    therefore fails on a digit, exactly as this parser then does. -/
def parse2Or1 (lo2 hi2 lo1 : Nat) (cs : List Char) : Option (Nat × List Char) :=
  match cs with
  | c1 :: c2 :: rest =>
    if c1.isDigit ∧ c2.isDigit then
      let v := (c1.toNat - 48) * 10 + (c2.toNat - 48)
      if lo2 ≤ v ∧ v ≤ hi2 then some (v, rest)
      else if lo1 ≤ c1.toNat - 48 then some (c1.toNat - 48, c2 :: rest)
      else none
    else if c1.isDigit ∧ lo1 ≤ c1.toNat - 48 then some (c1.toNat - 48, c2 :: rest)
    else none
  | [c1] =>
    if c1.isDigit ∧ lo1 ≤ c1.toNat - 48 then some (c1.toNat - 48, []) else none
  | [] => none

/-- The %d directive: besides the numeric alternatives 01-31 and 1-9,
    _strptime accepts a space-padded single digit (the trailing alternative
    space-then-1-to-9 of its day regex). -/
def parseDay (cs : List Char) : Option (Nat × List Char) :=
  match cs with
  | ' ' :: c :: rest =>
    if c.isDigit ∧ 1 ≤ c.toNat - 48 then some (c.toNat - 48, rest) else none
  | _ => parse2Or1 1 31 1 cs

/-- Gregorian leap-year test. -/
def isLeapYear (y : Nat) : Bool :=
  (y % 4 == 0 && y % 100 != 0) || (y % 400 == 0)

/-- Number of days in a month of a given year. -/
def daysInMonth (y m : Nat) : Nat :=
  if m = 2 then (if isLeapYear y then 29 else 28)
  else if m = 4 ∨ m = 6 ∨ m = 9 ∨ m = 11 then 30
  else 31

/-- Days from the civil date y-m-d to 1970-01-01 (the standard era-based
    civil-from-days inverse, floor divisions throughout). -/
def daysFromCivil (y m d : Int) : Int :=
  let yAdj : Int := if m ≤ 2 then y - 1 else y
  let era : Int := Int.fdiv yAdj 400
  let yoe : Int := yAdj - era * 400
  let mp : Int := Int.emod (m + 9) 12
  let doy : Int := Int.fdiv (153 * mp + 2) 5 + d - 1
  let doe : Int := yoe * 365 + Int.fdiv yoe 4 - Int.fdiv yoe 100 + doy
  era * 146097 + doe - 719468

/-- Model of datetime.strptime(s, "%Y-%m-%d %H:%M:%S") followed by
    int(dt.timestamp()), following the regex CPython _strptime.py compiles
    for this format: %Y is exactly four digits; %m is 01-12 or 1-9; %d is
    01-31, 1-9, or a space-padded 1-9; the literal space of the format
    matches one or more whitespace characters; %H is 00-23 or 0-9; %M is
    00-59 or 0-9; %S is 00-61 or 0-9; the whole string must be consumed
    (unconverted data raises). The datetime constructor then rejects year 0,
    a day beyond the month length, and seconds 60-61. On success the result
    is the epoch value of the parsed datetime (UTC convention as declared
    above; digits are the ASCII digits 0-9 — the re module would further
    accept other Unicode decimal digits, which the timestamps this program
    formats and stores never contain). Any failure returns none, the
    except branch of the callers. -/
def strptimeYmdHms (s : String) : Option Int := do
  let cs := s.toList
  let (y, cs) ← parse4Digits cs
  let cs ← expectChar '-' cs
  let (mo, cs) ← parse2Or1 1 12 1 cs
  let cs ← expectChar '-' cs
  let (d, cs) ← parseDay cs
  let cs ← parseWs1 cs
  let (h, cs) ← parse2Or1 0 23 0 cs
  let cs ← expectChar ':' cs
  let (mi, cs) ← parse2Or1 0 59 0 cs
  let cs ← expectChar ':' cs
  let (sec, cs) ← parse2Or1 0 61 0 cs
  if cs = [] ∧ 1 ≤ y ∧ d ≤ daysInMonth y mo ∧ sec ≤ 59 then
    some (daysFromCivil (Int.ofNat y) (Int.ofNat mo) (Int.ofNat d) * 86400
          + (h * 3600 + mi * 60 + sec : Nat))
  else none

/-- Row of the accounts table (spider/db/sqlite.py table accounts,
    spider/db/models.py class Account). -/
structure Account where
  id : Nat
  name : String
  platform : String
  account_id : String
  details : List (String × String)
  created_at : Int
  updated_at : Int
deriving DecidableEq, Repr

/-- Row of the articles table (spider/db/sqlite.py table articles,
    spider/db/models.py class Article). -/
structure Article where
  id : Nat
  account_id : Nat
  title : String
  url : String
  publish_time : String
  publish_timestamp : Int
  content : String
  summary : String
  details : List (String × String)
  created_at : Int
  updated_at : Int
deriving DecidableEq, Repr

/-- Whole database state shared by both backend embeddings; nextAccountId and
    nextArticleId model the AUTOINCREMENT primary keys. -/
structure DBState where
  accounts : List Account
  articles : List Article
  nextAccountId : Nat
  nextArticleId : Nat
deriving DecidableEq, Repr

/-- Empty database right after init_database. -/
def DBState.empty : DBState :=
  { accounts := [], articles := [], nextAccountId := 1, nextArticleId := 1 }

/-- Shared publish_timestamp computation of SQLiteDatabase.save_article
    (sqlite.py lines 230-238) and DatabaseORM.save_article (interface.py lines
    194-201): 0 when publish_time is falsy (absent or empty), the parsed epoch
    value when it parses as "%Y-%m-%d %H:%M:%S", and the current time when the
    parse raises. -/
def computePublishTimestamp (publish_time : Option String) (now : Int) : Int :=
  match publish_time with
  | none => 0
  | some s =>
    if s = "" then 0
    else
      match strptimeYmdHms s with
      | some t => t
      | none => now

namespace SQLiteDatabase

/-- SQLiteDatabase.save_article (sqlite.py lines 219-272): compute
    publish_timestamp, then return False leaving the state unchanged when a
    row with this url already exists, otherwise insert the new row and return
    True. -/
def save_article (st : DBState) (now : Int) (account_id : Nat)
    (title url : String) (publish_time content : Option String)
    (details : List (String × String)) (summary : Option String) :
    DBState × Bool :=
  let pts := computePublishTimestamp publish_time now
  if st.articles.any (fun a => a.url == url) then (st, false)
  else
    let art : Article :=
      { id := st.nextArticleId, account_id := account_id, title := title,
        url := url, publish_time := publish_time.getD "",
        publish_timestamp := pts, content := content.getD "",
        summary := summary.getD "", details := details,
        created_at := now, updated_at := now }
    ({ st with articles := st.articles ++ [art],
               nextArticleId := st.nextArticleId + 1 },
     true)

end SQLiteDatabase

namespace DatabaseORM

/-- DatabaseORM.save_article (interface.py lines 163-225): return False when a
    row with this url already exists, otherwise compute publish_timestamp and
    insert the new row. -/
def save_article (st : DBState) (now : Int) (account_id : Nat)
    (title url : String) (publish_time content : Option String)
    (details : List (String × String)) (summary : Option String) :
    DBState × Bool :=
  if st.articles.any (fun a => a.url == url) then (st, false)
  else
    let pts := computePublishTimestamp publish_time now
    let art : Article :=
      { id := st.nextArticleId, account_id := account_id, title := title,
        url := url, publish_time := publish_time.getD "",
        publish_timestamp := pts, content := content.getD "",
        summary := summary.getD "", details := details,
        created_at := now, updated_at := now }
    ({ st with articles := st.articles ++ [art],
               nextArticleId := st.nextArticleId + 1 },
     true)

end DatabaseORM

/-- Descending publish_timestamp order used by ORDER BY publish_timestamp DESC. -/
def tsDesc (a b : Article) : Prop :=
  b.publish_timestamp ≤ a.publish_timestamp

instance : DecidableRel tsDesc := fun a b =>
  Int.decLe b.publish_timestamp a.publish_timestamp

instance : IsTotal Article tsDesc :=
  ⟨fun a b => Int.le_total b.publish_timestamp a.publish_timestamp⟩

instance : IsTrans Article tsDesc :=
  ⟨fun _ _ _ hab hbc => le_trans hbc hab⟩

/-- Substring containment, modelling the SQL pattern LIKE percent-k-percent
    produced by both backends for keyword search. -/
def strContains (hay needle : String) : Bool :=
  decide (needle.toList <:+: hay.toList)

namespace SQLiteDatabase

/-- Keyword clause of SQLiteDatabase.get_articles (sqlite.py lines 312-320):
    one disjunct (title LIKE k OR content LIKE k OR summary LIKE k) per
    keyword, the disjuncts joined by OR. -/
def keywordPred (keywords : List String) (a : Article) : Bool :=
  keywords.any (fun k =>
    strContains a.title k || strContains a.content k || strContains a.summary k)

/-- Row filter of SQLiteDatabase.get_articles (sqlite.py lines 274-321):
    the platform filter joins through the accounts table only when no
    account_id is given; date bounds are midnight of start_date and 86399
    seconds past midnight of end_date (dates given as epoch day numbers, the
    value the source obtains by parsing the "%Y-%m-%d" string); the keyword
    clause is added only for a truthy (nonempty) keyword list. -/
def rowPasses (st : DBState) (account_id : Option Nat) (platform : Option String)
    (start_date end_date : Option Int) (keywords : Option (List String))
    (a : Article) : Bool :=
  (match platform, account_id with
   | some pf, none =>
     st.accounts.any (fun acc => acc.id == a.account_id && acc.platform == pf)
   | _, _ =>
     match account_id with
     | some aid => a.account_id == aid
     | none => true)
  && (match start_date with
      | some sd => decide (sd * 86400 ≤ a.publish_timestamp)
      | none => true)
  && (match end_date with
      | some ed => decide (a.publish_timestamp ≤ ed * 86400 + 86399)
      | none => true)
  && (match keywords with
      | some kws => if kws.isEmpty then true else keywordPred kws a
      | none => true)

/-- SQLiteDatabase.get_articles (sqlite.py lines 274-341): filter, ORDER BY
    publish_timestamp DESC (ties keep row order), then LIMIT lim OFFSET off. -/
def get_articles (st : DBState) (account_id : Option Nat) (platform : Option String)
    (start_date end_date : Option Int) (keywords : Option (List String))
    (lim off : Nat) : List Article :=
  ((List.insertionSort tsDesc
      (st.articles.filter
        (rowPasses st account_id platform start_date end_date keywords))).drop off).take lim

end SQLiteDatabase

namespace DatabaseORM

/-- Keyword clause of DatabaseORM.get_articles (interface.py lines 269-276):
    three contains-filters appended per keyword into one flat list, then a
    single or_ over the whole list. -/
def keywordPred (keywords : List String) (a : Article) : Bool :=
  ((keywords.map (fun k =>
      [strContains a.title k, strContains a.content k, strContains a.summary k])).flatten).any
    (fun b => b)

/-- Row filter of DatabaseORM.get_articles (interface.py lines 227-277): join
    through accounts only when platform is given without account_id; same date
    bounds as the SQLite backend; keyword clause only for a truthy keyword
    list. -/
def rowPasses (st : DBState) (account_id : Option Nat) (platform : Option String)
    (start_date end_date : Option Int) (keywords : Option (List String))
    (a : Article) : Bool :=
  (match platform, account_id with
   | some pf, none =>
     st.accounts.any (fun acc => acc.id == a.account_id && acc.platform == pf)
   | _, _ =>
     match account_id with
     | some aid => a.account_id == aid
     | none => true)
  && (match start_date with
      | some sd => decide (sd * 86400 ≤ a.publish_timestamp)
      | none => true)
  && (match end_date with
      | some ed => decide (a.publish_timestamp ≤ ed * 86400 + 86399)
      | none => true)
  && (match keywords with
      | some kws => if kws.isEmpty then true else keywordPred kws a
      | none => true)

/-- DatabaseORM.get_articles (interface.py lines 227-303): filter, order by
    publish_timestamp descending, then limit and offset. -/
def get_articles (st : DBState) (account_id : Option Nat) (platform : Option String)
    (start_date end_date : Option Int) (keywords : Option (List String))
    (lim off : Nat) : List Article :=
  ((List.insertionSort tsDesc
      (st.articles.filter
        (rowPasses st account_id platform start_date end_date keywords))).drop off).take lim

end DatabaseORM

/-- Article dict built by the scraper (scraper.py lines 152-160); the
    publish_time, digest and content string fields are carried through the
    date filter unchanged and no claim depends on them, so they are elided. -/
structure RawArticle where
  name : String
  title : String
  link : String
  publish_timestamp : Int
deriving DecidableEq, Repr

namespace WeChatScraper

/-- Calendar date (epoch day number) of a timestamp: model of
    datetime.fromtimestamp(ts).date() under the UTC convention. -/
def dateOfTimestamp (ts : Int) : Int :=
  Int.fdiv ts 86400

/-- WeChatScraper.filter_articles_by_date (scraper.py lines 201-235): with
    both bounds absent the list is returned unchanged; otherwise an article is
    kept iff its publish_timestamp is truthy (nonzero) and its calendar date
    violates neither given bound. Bounds are epoch day numbers (the
    datetime.date objects of the source; the string branch parses "%Y-%m-%d"
    to the same value). -/
def filter_articles_by_date (articles : List RawArticle)
    (start_date end_date : Option Int) : List RawArticle :=
  if start_date = none ∧ end_date = none then articles
  else
    articles.filter (fun a =>
      a.publish_timestamp != 0
      && (match start_date with
          | some sd => decide (¬ dateOfTimestamp a.publish_timestamp < sd)
          | none => true)
      && (match end_date with
          | some ed => decide (¬ ed < dateOfTimestamp a.publish_timestamp)
          | none => true))

/-- One page entry returned by get_articles_list (wechat/utils.py). -/
structure Stub where
  title : String
  link : String
  update_time : Int
deriving DecidableEq, Repr

/-- Article dict built from one stub (scraper.py lines 151-161). -/
def stubToArticle (name : String) (s : Stub) : RawArticle :=
  { name := name, title := s.title, link := s.link,
    publish_timestamp := s.update_time }

/-- Result of get_account_articles together with how many page fetches were
    performed and whether the error callback fired. -/
structure FetchOutcome where
  articles : List RawArticle
  pageFetches : Nat
  errored : Bool
deriving DecidableEq, Repr

/-- Pagination loop of WeChatScraper.get_account_articles (scraper.py lines
    133-167): one get_articles_list call per iteration (counted in the second
    component), stop on an empty page or when the page budget runs out,
    page_start advancing by 5. The oracle env gives the page contents at each
    page_start. -/
def fetchPages (env : Nat → List Stub) (name : String) :
    Nat → Nat → List RawArticle → Nat → List RawArticle × Nat
  | 0, _, acc, fetches => (acc, fetches)
  | fuel + 1, page_start, acc, fetches =>
    let stubs := env page_start
    if stubs.isEmpty then (acc, fetches + 1)
    else
      fetchPages env name fuel (page_start + 5)
        (acc ++ stubs.map (stubToArticle name)) (fetches + 1)

/-- WeChatScraper.get_account_articles (scraper.py lines 104-176): error (and
    empty result) when token or headers are unset; a falsy fakeid argument is
    replaced by the first search result, and an empty search is an error with
    empty result; otherwise the pagination loop runs range(max_pages) times at
    most (zero times for a non-positive page budget). The searchResults oracle
    lists the fakeids search_account would return. -/
def get_account_articles (authSet : Bool) (searchResults : List String)
    (env : Nat → List Stub) (account_name : String) (fakeid : Option String)
    (max_pages : Int) : FetchOutcome :=
  if ¬ authSet then { articles := [], pageFetches := 0, errored := true }
  else
    let resolved : Option String :=
      if fakeid.getD "" = "" then searchResults.head? else fakeid
    match resolved with
    | none => { articles := [], pageFetches := 0, errored := true }
    | some _ =>
      let p := fetchPages env account_name max_pages.toNat 0 [] 0
      { articles := p.1, pageFetches := p.2, errored := false }

end WeChatScraper

namespace BatchWeChatScraper

/-- Events observable through the batch callbacks. -/
inductive BEvent where
  | accountStatus (name status msg : String)
  | progressUpdated (current total : Nat)
  | errorOccurred (name msg : String)
deriving DecidableEq, Repr

/-- Keys of the callbacks dict built in BatchWeChatScraper.__init__
    (scraper.py lines 320-326); set_callback (lines 328-337) refuses any
    other key. -/
def callbackKeys : List String :=
  ["progress_updated", "account_status", "batch_completed", "error_occurred"]

/-- BatchWeChatScraper._trigger_error (scraper.py lines 576-581): it
    subscripts the callbacks dict with the key "error"; a Python dict
    subscript with a missing key raises KeyError, so the call only succeeds
    when "error" is among the callback keys. -/
def trigger_error (events : List BEvent) (name msg : String) :
    Except String (List BEvent) :=
  if "error" ∈ callbackKeys then
    Except.ok (events ++ [BEvent.errorOccurred name msg])
  else
    Except.error "KeyError: error"

/-- Loop body of BatchWeChatScraper._process_accounts_sequential (scraper.py
    lines 406-449) with is_cancelled fixed to False and the sleeps elided.
    The pipeline argument is _scrape_single_account for each account name:
    Except.error models an exception escaping that account (for example the
    raise on zero search candidates at line 520). An exception is caught and
    routed to _trigger_account_status and _trigger_error; an exception inside
    that handler propagates and aborts the whole loop. -/
def processSeqAux (pipeline : String → Except String (List RawArticle))
    (total : Nat) :
    List String → Nat → List RawArticle → List BEvent →
      Except String (List RawArticle × List BEvent)
  | [], _, arts, evs =>
    Except.ok (arts, evs ++ [BEvent.progressUpdated total total])
  | account :: rest, i, arts, evs =>
    let evs := evs ++ [BEvent.accountStatus account "processing" "",
                       BEvent.progressUpdated i total]
    match pipeline account with
    | Except.ok newArts =>
      processSeqAux pipeline total rest (i + 1) (arts ++ newArts)
        (evs ++ [BEvent.accountStatus account "completed" ""])
    | Except.error e =>
      match trigger_error (evs ++ [BEvent.accountStatus account "error" e])
          account e with
      | Except.ok evs2 => processSeqAux pipeline total rest (i + 1) arts evs2
      | Except.error err => Except.error err

/-- BatchWeChatScraper._process_accounts_sequential (scraper.py lines
    406-449): fold the per-account pipeline over the account list, returning
    either the aggregated articles plus the emitted events, or the exception
    that aborted the run. -/
def process_accounts_sequential
    (pipeline : String → Except String (List RawArticle))
    (accounts : List String) :
    Except String (List RawArticle × List BEvent) :=
  processSeqAux pipeline accounts.length accounts 0 [] []

end BatchWeChatScraper

namespace WeChatSpiderLogin

/-- Outcome of the liveness probe request that validate_cache sends
    (login.py lines 136-145). -/
inductive ProbeResult where
  | ret (code : Int)
  | noBaseResp
  | exn
deriving DecidableEq, Repr

/-- WeChatSpiderLogin.validate_cache (login.py lines 112-163): True only for a
    probe response whose base_resp.ret is 0; the revocation codes -6 and
    200013 return False, any other code returns False, a response without
    base_resp returns False, and any exception of the request (network error,
    timeout, bad HTTP status) is caught by the blanket except and also
    returns False. -/
def validate_cache (hasToken hasCookies : Bool) (probe : ProbeResult) : Bool :=
  if ¬ (hasToken && hasCookies) then false
  else
    match probe with
    | ProbeResult.ret code =>
      if code = 0 then true
      else if code = -6 ∨ code = 200013 then false
      else false
    | ProbeResult.noBaseResp => false
    | ProbeResult.exn => false

/-- What the cache-handling prefix of WeChatSpiderLogin.login decides
    (login.py lines 238-244). -/
structure CacheDecision where
  usedCache : Bool
  clearedCacheFile : Bool
  reauthTriggered : Bool
deriving DecidableEq, Repr

/-- Cache-handling prefix of WeChatSpiderLogin.login (login.py lines
    238-244): when load_cache() succeeds (file present and within the age
    window) and validate_cache() returns True, the cached credential is used;
    in every other case clear_cache() deletes the credential file and the
    scan-to-login reauthentication flow is entered. -/
def loginCacheDecision (loadOk hasToken hasCookies : Bool)
    (probe : ProbeResult) : CacheDecision :=
  if loadOk && validate_cache hasToken hasCookies probe then
    { usedCache := true, clearedCacheFile := false, reauthTriggered := false }
  else
    { usedCache := false, clearedCacheFile := true, reauthTriggered := true }

end WeChatSpiderLogin

/-- No two stored articles share a url (the UNIQUE(url) table invariant). -/
def urlsNodup (st : DBState) : Prop :=
  (st.articles.map (fun a => a.url)).Nodup

/-- Argument tuple of one save_article call. -/
structure SaveCall where
  now : Int
  account_id : Nat
  title : String
  url : String
  publish_time : Option String
  content : Option String
  details : List (String × String)
  summary : Option String

/-- Fold a sequence of save_article calls over the SQLite backend. -/
def applySqliteSaves (st : DBState) : List SaveCall → DBState
  | [] => st
  | c :: cs =>
    applySqliteSaves
      (SQLiteDatabase.save_article st c.now c.account_id c.title c.url
        c.publish_time c.content c.details c.summary).1 cs

/-- Fold a sequence of save_article calls over the ORM backend. -/
def applyOrmSaves (st : DBState) : List SaveCall → DBState
  | [] => st
  | c :: cs =>
    applyOrmSaves
      (DatabaseORM.save_article st c.now c.account_id c.title c.url
        c.publish_time c.content c.details c.summary).1 cs

/-- Keyword filter in the words of claim C6 and spec section 4.5: OR across
    keywords, AND across the fields title, content and summary. Stated for
    comparison with the keyword predicates the backends implement. -/
def specKeywordFilterC6 (keywords : List String) (a : Article) : Bool :=
  keywords.any (fun k =>
    strContains a.title k && strContains a.content k && strContains a.summary k)

/-- Concrete stored article used by the C2 scenario. -/
def artU : Article :=
  { id := 1, account_id := 1, title := "first", url := "u",
    publish_time := "", publish_timestamp := 50, content := "", summary := "",
    details := [], created_at := 0, updated_at := 0 }

/-- Concrete state holding artU. -/
def stC2 : DBState :=
  { accounts := [], articles := [artU], nextAccountId := 1, nextArticleId := 2 }

/-- Concrete article whose title alone contains the keyword, C6 scenario. -/
def artC6 : Article :=
  { id := 1, account_id := 1, title := "alpha news", url := "u6",
    publish_time := "", publish_timestamp := 100, content := "body",
    summary := "sum", details := [], created_at := 0, updated_at := 0 }

/-- Concrete state holding artC6. -/
def stC6 : DBState :=
  { accounts := [], articles := [artC6], nextAccountId := 1, nextArticleId := 2 }

/-- Scraper article carrying the falsy timestamp 0. -/
def artTs0 : RawArticle :=
  { name := "n", title := "t0", link := "l0", publish_timestamp := 0 }

/-- Scraper article stamped at 1970-01-02 00:00:00 (day 1, timestamp 86400). -/
def artStart : RawArticle :=
  { name := "n", title := "ts", link := "ls", publish_timestamp := 86400 }

/-- Per-account pipeline oracle for the C1 scenario: account B raises (its
    resolve returns zero candidates, scraper.py line 520), the others return
    one article each. -/
def pipelineC1 : String → Except String (List RawArticle) :=
  fun name =>
    if name = "B" then Except.error "No candidates for account B"
    else Except.ok [{ name := name, title := "t", link := String.append "l" name,
                      publish_timestamp := 100 }]

/-- C1: failure isolation does not hold in the code. When the pipeline of one
    account raises (here account B, whose resolve returns zero candidates),
    the except handler of _process_accounts_sequential calls _trigger_error,
    which subscripts the callbacks dict with the key "error"; that key is not
    among the keys the constructor installs (the error callback is stored
    under "error_occurred"), so the subscript raises KeyError inside the
    handler and the whole batch aborts: account C, whose pipeline would
    succeed, is never processed and the run raises instead of returning. -/
theorem batch_error_event_keyerror_aborts :
    BatchWeChatScraper.process_accounts_sequential pipelineC1 ["A", "B", "C"]
      = Except.error "KeyError: error"
    ∧ pipelineC1 "C"
      = Except.ok [{ name := "C", title := "t", link := "lC",
                     publish_timestamp := 100 }]
    ∧ "error" ∉ BatchWeChatScraper.callbackKeys
    ∧ "error_occurred" ∈ BatchWeChatScraper.callbackKeys :=
  ⟨rfl, rfl, by decide, by decide⟩

/-- C4 counterexample: a cached credential inside its age window (load_cache
    succeeded, token and cookies present) whose liveness probe fails
    transiently (requests exception: network error or timeout) IS invalidated
    by the code: validate_cache catches the exception and returns False, so
    login clears the credential file and enters reauthentication, contrary to
    the claim that only an explicit revocation signal does this. -/
theorem login_transient_probe_failure_counterexample :
    WeChatSpiderLogin.loginCacheDecision true true true
        WeChatSpiderLogin.ProbeResult.exn
      = { usedCache := false, clearedCacheFile := true,
          reauthTriggered := true } := by decide

/-- C4 amended: every liveness-probe outcome other than an explicit success
    (base_resp.ret equal to 0) — server revocation codes, other error codes,
    malformed responses, and transient network or timeout failures alike —
    makes validate_cache return False, upon which login deletes the credential
    file and triggers reauthentication; the cached credential is kept exactly
    when the probe succeeds with ret 0. -/
theorem login_cache_liveness_policy (loadOk hasToken hasCookies : Bool)
    (probe : WeChatSpiderLogin.ProbeResult)
    (hfail : probe ≠ WeChatSpiderLogin.ProbeResult.ret 0) :
    WeChatSpiderLogin.loginCacheDecision loadOk hasToken hasCookies probe
      = { usedCache := false, clearedCacheFile := true, reauthTriggered := true }
    ∧ WeChatSpiderLogin.loginCacheDecision true true true
        (WeChatSpiderLogin.ProbeResult.ret 0)
      = { usedCache := true, clearedCacheFile := false,
          reauthTriggered := false } := by
  constructor
  · have hv : WeChatSpiderLogin.validate_cache hasToken hasCookies probe = false := by
      cases probe with
      | ret code =>
        by_cases h0 : code = 0
        · subst h0; exact absurd rfl hfail
        · simp [WeChatSpiderLogin.validate_cache, h0]
      | noBaseResp => simp [WeChatSpiderLogin.validate_cache]
      | exn => simp [WeChatSpiderLogin.validate_cache]
    simp [WeChatSpiderLogin.loginCacheDecision, hv]
  · decide

/-- C4 amended, witness: an unrecognized probe error code invalidates the
    cache and triggers reauthentication. -/
theorem login_cache_liveness_policy_witness :
    WeChatSpiderLogin.loginCacheDecision true true true
        (WeChatSpiderLogin.ProbeResult.ret 5)
      = { usedCache := false, clearedCacheFile := true,
          reauthTriggered := true } :=
  (login_cache_liveness_policy true true true
    (WeChatSpiderLogin.ProbeResult.ret 5) (by decide)).1

/-- C9: with token and headers set and the account resolvable (a truthy
    fakeid argument, or a nonempty search result for a falsy one), a page
    budget of zero or negative makes get_account_articles perform no page
    fetch at all and return the empty list without firing the error
    callback. -/
theorem get_account_articles_nonpositive_budget
    (searchResults : List String) (env : Nat → List WeChatScraper.Stub)
    (name : String) (fakeid : Option String) (max_pages : Int)
    (hmp : max_pages ≤ 0)
    (hres : (if fakeid.getD "" = "" then searchResults.head? else fakeid).isSome
      = true) :
    WeChatScraper.get_account_articles true searchResults env name fakeid
        max_pages
      = { articles := [], pageFetches := 0, errored := false } := by
  obtain ⟨f, hf⟩ := Option.isSome_iff_exists.mp hres
  have htn : max_pages.toNat = 0 := Int.toNat_of_nonpos hmp
  simp [WeChatScraper.get_account_articles, hf, htn, WeChatScraper.fetchPages]

/-- C9 witness at page budget 0. -/
theorem get_account_articles_nonpositive_budget_witness :
    WeChatScraper.get_account_articles true ["fk"] (fun _ => []) "acme" none 0
      = { articles := [], pageFetches := 0, errored := false } :=
  get_account_articles_nonpositive_budget ["fk"] (fun _ => []) "acme" none 0
    (by decide) (by decide)

/-- C10: whenever at least one date bound is given, filter_articles_by_date
    silently drops every article whose publish_timestamp is falsy (absent
    dict keys read as the default 0, so absent and zero coincide), regardless
    of the window. -/
theorem filter_articles_by_date_drops_falsy_timestamp
    (arts : List RawArticle) (sd ed : Option Int)
    (h : ¬ (sd = none ∧ ed = none)) (a : RawArticle)
    (hts : a.publish_timestamp = 0) :
    a ∉ WeChatScraper.filter_articles_by_date arts sd ed := by
  unfold WeChatScraper.filter_articles_by_date
  rw [if_neg h]
  intro hmem
  have hp := (List.mem_filter.mp hmem).2
  simp [hts] at hp

/-- C10 witness: the zero-stamped article vanishes from a window with only a
    start bound. -/
theorem filter_articles_by_date_drops_falsy_timestamp_witness :
    artTs0 ∉ WeChatScraper.filter_articles_by_date [artTs0] (some 0) none :=
  filter_articles_by_date_drops_falsy_timestamp [artTs0] (some 0) none
    (by decide) artTs0 (by decide)

/-- One SQLite save_article call preserves url uniqueness. -/
theorem sqlite_save_article_preserves_urlsNodup (st : DBState) (c : SaveCall)
    (h : urlsNodup st) :
    urlsNodup (SQLiteDatabase.save_article st c.now c.account_id c.title c.url
      c.publish_time c.content c.details c.summary).1 := by
  unfold SQLiteDatabase.save_article
  cases hany : st.articles.any (fun a => a.url == c.url) with
  | true => simpa [hany] using h
  | false =>
    have hnin : c.url ∉ st.articles.map (fun a => a.url) := by
      intro hmem
      obtain ⟨a, ha, hurl⟩ := List.mem_map.mp hmem
      have hfa := List.any_eq_false.mp hany a ha
      simp [hurl] at hfa
    unfold urlsNodup at h ⊢
    simp only [hany, Bool.false_eq_true, if_false, List.map_append,
      List.map_cons, List.map_nil]
    exact List.Nodup.append h (List.nodup_singleton _)
      (fun x hx hy => by
        simp only [List.mem_singleton] at hy
        exact hnin (hy ▸ hx))

/-- One ORM save_article call preserves url uniqueness. -/
theorem orm_save_article_preserves_urlsNodup (st : DBState) (c : SaveCall)
    (h : urlsNodup st) :
    urlsNodup (DatabaseORM.save_article st c.now c.account_id c.title c.url
      c.publish_time c.content c.details c.summary).1 := by
  unfold DatabaseORM.save_article
  cases hany : st.articles.any (fun a => a.url == c.url) with
  | true => simpa [hany] using h
  | false =>
    have hnin : c.url ∉ st.articles.map (fun a => a.url) := by
      intro hmem
      obtain ⟨a, ha, hurl⟩ := List.mem_map.mp hmem
      have hfa := List.any_eq_false.mp hany a ha
      simp [hurl] at hfa
    unfold urlsNodup at h ⊢
    simp only [hany, Bool.false_eq_true, if_false, List.map_append,
      List.map_cons, List.map_nil]
    exact List.Nodup.append h (List.nodup_singleton _)
      (fun x hx hy => by
        simp only [List.mem_singleton] at hy
        exact hnin (hy ▸ hx))

/-- Any sequence of SQLite save_article calls preserves url uniqueness. -/
theorem applySqliteSaves_preserves_urlsNodup (calls : List SaveCall)
    (st : DBState) (h : urlsNodup st) : urlsNodup (applySqliteSaves st calls) := by
  induction calls generalizing st with
  | nil => exact h
  | cons c cs ih => exact ih _ (sqlite_save_article_preserves_urlsNodup st c h)

/-- Any sequence of ORM save_article calls preserves url uniqueness. -/
theorem applyOrmSaves_preserves_urlsNodup (calls : List SaveCall)
    (st : DBState) (h : urlsNodup st) : urlsNodup (applyOrmSaves st calls) := by
  induction calls generalizing st with
  | nil => exact h
  | cons c cs ih => exact ih _ (orm_save_article_preserves_urlsNodup st c h)

/-- C2: when an article with the given url is already stored, save_article of
    either backend returns false — an ordinary return value, not an error —
    and leaves the whole state unchanged (no field of any stored row is
    overwritten); consequently, starting from a state with pairwise distinct
    urls, any sequence of save_article calls on either backend keeps the urls
    pairwise distinct — exactly one row per url. -/
theorem save_article_url_dedup (st : DBState) (now : Int) (aid : Nat)
    (title url : String) (pt ct : Option String)
    (det : List (String × String)) (sm : Option String)
    (hdup : st.articles.any (fun a => a.url == url) = true) :
    SQLiteDatabase.save_article st now aid title url pt ct det sm = (st, false)
    ∧ DatabaseORM.save_article st now aid title url pt ct det sm = (st, false)
    ∧ (∀ st0 calls, urlsNodup st0 →
        urlsNodup (applySqliteSaves st0 calls)
        ∧ urlsNodup (applyOrmSaves st0 calls)) := by
  refine ⟨by simp [SQLiteDatabase.save_article, hdup],
    by simp [DatabaseORM.save_article, hdup],
    fun st0 calls h0 =>
      ⟨applySqliteSaves_preserves_urlsNodup calls st0 h0,
       applyOrmSaves_preserves_urlsNodup calls st0 h0⟩⟩

/-- C2 witness: re-saving url u against the state already holding it. -/
theorem save_article_url_dedup_witness :
    SQLiteDatabase.save_article stC2 99 1 "second" "u" none none [] none
      = (stC2, false)
    ∧ DatabaseORM.save_article stC2 99 1 "second" "u" none none [] none
      = (stC2, false) := by
  have h := save_article_url_dedup stC2 99 1 "second" "u" none none [] none
    (by decide)
  exact ⟨h.1, h.2.1⟩

/-- C5 counterexample: saving an article with an empty publish_time string at
    fetch time 1000 stores publish_timestamp 0 in both backends (likewise
    when the argument is absent): the code substitutes the fetch time only
    when a nonempty string fails to parse, so the field IS left zero exactly
    in the empty-or-absent case the claim includes. -/
theorem save_article_empty_publish_time_counterexample :
    ((SQLiteDatabase.save_article DBState.empty 1000 1 "t" "u" (some "") none
        [] none).1.articles.map (fun a => a.publish_timestamp)) = [0]
    ∧ ((DatabaseORM.save_article DBState.empty 1000 1 "t" "u" none none
        [] none).1.articles.map (fun a => a.publish_timestamp)) = [0] := by
  decide

/-- C5 amended: for a fresh url, both backends derive the stored
    publish_timestamp from publish_time as follows — a nonempty string that
    fails to parse as "%Y-%m-%d %H:%M:%S" is replaced by the fetch time, a
    string that parses stores the parsed epoch value, and an empty or absent
    publish_time stores 0 (not the fetch time). -/
theorem save_article_publish_timestamp (st : DBState) (now : Int) (aid : Nat)
    (title url : String) (ct : Option String) (det : List (String × String))
    (sm : Option String)
    (hfresh : st.articles.any (fun a => a.url == url) = false) :
    (∀ s, s ≠ "" → strptimeYmdHms s = none →
      ((SQLiteDatabase.save_article st now aid title url (some s) ct det
          sm).1.articles.map (fun a => (a.url, a.publish_timestamp)))
        = st.articles.map (fun a => (a.url, a.publish_timestamp)) ++ [(url, now)]
      ∧ ((DatabaseORM.save_article st now aid title url (some s) ct det
          sm).1.articles.map (fun a => (a.url, a.publish_timestamp)))
        = st.articles.map (fun a => (a.url, a.publish_timestamp)) ++ [(url, now)])
    ∧ (∀ s t, strptimeYmdHms s = some t →
      ((SQLiteDatabase.save_article st now aid title url (some s) ct det
          sm).1.articles.map (fun a => (a.url, a.publish_timestamp)))
        = st.articles.map (fun a => (a.url, a.publish_timestamp)) ++ [(url, t)]
      ∧ ((DatabaseORM.save_article st now aid title url (some s) ct det
          sm).1.articles.map (fun a => (a.url, a.publish_timestamp)))
        = st.articles.map (fun a => (a.url, a.publish_timestamp)) ++ [(url, t)])
    ∧ (∀ pt, pt = none ∨ pt = some "" →
      ((SQLiteDatabase.save_article st now aid title url pt ct det
          sm).1.articles.map (fun a => (a.url, a.publish_timestamp)))
        = st.articles.map (fun a => (a.url, a.publish_timestamp)) ++ [(url, 0)]
      ∧ ((DatabaseORM.save_article st now aid title url pt ct det
          sm).1.articles.map (fun a => (a.url, a.publish_timestamp)))
        = st.articles.map (fun a => (a.url, a.publish_timestamp)) ++ [(url, 0)]) := by
  refine ⟨?_, ?_, ?_⟩
  · intro s hs hparse
    constructor
    · simp [SQLiteDatabase.save_article, hfresh, computePublishTimestamp, hs,
        hparse]
    · simp [DatabaseORM.save_article, hfresh, computePublishTimestamp, hs,
        hparse]
  · intro s t hparse
    have hs : s ≠ "" := by
      intro h
      have h0 : strptimeYmdHms "" = none := rfl
      rw [h, h0] at hparse
      simp at hparse
    constructor
    · simp [SQLiteDatabase.save_article, hfresh, computePublishTimestamp, hs,
        hparse]
    · simp [DatabaseORM.save_article, hfresh, computePublishTimestamp, hs,
        hparse]
  · intro pt hpt
    rcases hpt with h | h <;> subst h
    · exact ⟨by simp [SQLiteDatabase.save_article, hfresh, computePublishTimestamp],
        by simp [DatabaseORM.save_article, hfresh, computePublishTimestamp]⟩
    · exact ⟨by simp [SQLiteDatabase.save_article, hfresh, computePublishTimestamp],
        by simp [DatabaseORM.save_article, hfresh, computePublishTimestamp]⟩

/-- C5 amended, witness: an unparsable nonempty publish_time stores the fetch
    time 777. -/
theorem save_article_publish_timestamp_witness :
    ((SQLiteDatabase.save_article DBState.empty 777 1 "t" "u" (some "bogus")
        none [] none).1.articles.map (fun a => (a.url, a.publish_timestamp)))
      = [("u", 777)]
    ∧ ((DatabaseORM.save_article DBState.empty 777 1 "t" "u" (some "bogus")
        none [] none).1.articles.map (fun a => (a.url, a.publish_timestamp)))
      = [("u", 777)] := by
  have h := (save_article_publish_timestamp DBState.empty 777 1 "t" "u" none
    [] none (by decide)).1 "bogus" (by decide) (by rfl)
  simpa using h

/-- The flat OR the ORM builds over all keyword-field pairs equals the
    OR-of-per-keyword-disjunctions the SQLite backend builds. -/
theorem orm_keywordPred_eq (kws : List String) (a : Article) :
    DatabaseORM.keywordPred kws a = SQLiteDatabase.keywordPred kws a := by
  induction kws with
  | nil => rfl
  | cons k ks ih =>
    simp [DatabaseORM.keywordPred, SQLiteDatabase.keywordPred, List.any_cons,
      Bool.or_assoc] at ih ⊢
    rw [ih]

/-- The two backends build the same row filter for identical arguments. -/
theorem rowPasses_eq (st : DBState) (aid : Option Nat) (pf : Option String)
    (sd ed : Option Int) (kws : Option (List String)) (a : Article) :
    DatabaseORM.rowPasses st aid pf sd ed kws a
      = SQLiteDatabase.rowPasses st aid pf sd ed kws a := by
  unfold DatabaseORM.rowPasses SQLiteDatabase.rowPasses
  rcases kws with _ | ks
  · rfl
  · simp only [orm_keywordPred_eq]

/-- C6 counterexample: with keyword alpha, an article whose title contains
    alpha but whose content and summary do not is returned by get_articles of
    both backends, while the claimed AND-across-fields filter rejects it. -/
theorem get_articles_keyword_and_counterexample :
    SQLiteDatabase.get_articles stC6 none none none none (some ["alpha"]) 100 0
      = [artC6]
    ∧ DatabaseORM.get_articles stC6 none none none none (some ["alpha"]) 100 0
      = [artC6]
    ∧ specKeywordFilterC6 ["alpha"] artC6 = false := by decide

/-- C6 amended: for a nonempty keyword list (no other filters, offset 0 and a
    limit at least the number of stored rows), an article is returned by
    get_articles of either backend iff it is stored and SOME keyword is a
    substring of AT LEAST ONE of its title, content or summary fields — OR
    across keywords and OR across fields, not AND across fields. -/
theorem get_articles_keyword_filter (st : DBState) (kws : List String)
    (hk : kws ≠ []) (lim : Nat) (hlim : st.articles.length ≤ lim)
    (a : Article) :
    (a ∈ SQLiteDatabase.get_articles st none none none none (some kws) lim 0
      ↔ a ∈ st.articles
        ∧ kws.any (fun k => strContains a.title k || strContains a.content k
            || strContains a.summary k) = true)
    ∧ (a ∈ DatabaseORM.get_articles st none none none none (some kws) lim 0
      ↔ a ∈ st.articles
        ∧ kws.any (fun k => strContains a.title k || strContains a.content k
            || strContains a.summary k) = true) := by
  have hke : kws.isEmpty = false := by
    cases kws with
    | nil => exact absurd rfl hk
    | cons x xs => rfl
  have hlen : ∀ p : Article → Bool,
      (List.insertionSort tsDesc (st.articles.filter p)).length ≤ lim :=
    fun p => by
      rw [List.length_insertionSort]
      exact le_trans (List.length_filter_le p st.articles) hlim
  constructor
  · unfold SQLiteDatabase.get_articles
    rw [List.drop_zero, List.take_of_length_le (hlen _)]
    rw [(List.perm_insertionSort tsDesc _).mem_iff, List.mem_filter]
    simp [SQLiteDatabase.rowPasses, SQLiteDatabase.keywordPred, hke]
  · unfold DatabaseORM.get_articles
    rw [List.drop_zero, List.take_of_length_le (hlen _)]
    rw [(List.perm_insertionSort tsDesc _).mem_iff, List.mem_filter]
    have hrp : ∀ b : Article, DatabaseORM.rowPasses st none none none none
        (some kws) b = SQLiteDatabase.rowPasses st none none none none
        (some kws) b :=
      fun b => rowPasses_eq st none none none none (some kws) b
    simp [hrp, SQLiteDatabase.rowPasses, SQLiteDatabase.keywordPred, hke]

/-- C6 amended, witness: the title-only match is returned. -/
theorem get_articles_keyword_filter_witness :
    artC6 ∈ SQLiteDatabase.get_articles stC6 none none none none
      (some ["alpha"]) 100 0 :=
  ((get_articles_keyword_filter stC6 ["alpha"] (by decide) 100 (by decide)
    artC6).1).2 ⟨by decide, by decide⟩

/-- Epoch day of a timestamp written as day times 86400 plus an in-day
    remainder. -/
theorem dateOfTimestamp_mul_add (d r : Int) (h0 : 0 ≤ r) (h1 : r < 86400) :
    WeChatScraper.dateOfTimestamp (d * 86400 + r) = d := by
  unfold WeChatScraper.dateOfTimestamp
  rw [Int.fdiv_eq_ediv _ (by norm_num)]
  omega

/-- C7 counterexample: for the window 1970-01-01 .. 1970-01-01 (epoch day 0),
    an article whose publish_timestamp is exactly 0 — start_date 00:00:00,
    squarely inside the window by the claimed date rule, as the second
    conjunct shows — is nevertheless dropped, because the code first discards
    every falsy timestamp. -/
theorem filter_articles_by_date_zero_ts_counterexample :
    WeChatScraper.filter_articles_by_date [artTs0] (some 0) (some 0) = []
    ∧ WeChatScraper.dateOfTimestamp artTs0.publish_timestamp = 0 := by decide

/-- C7 amended: for a window of epoch days sd ≤ ed with sd positive,
    filter_articles_by_date keeps exactly the articles with NONZERO
    publish_timestamp whose calendar date lies in [sd, ed] inclusive; in
    particular an article stamped exactly sd 00:00:00 or ed 23:59:59 is kept,
    and one stamped one second outside either bound is dropped. (Articles
    with the falsy timestamp 0 are dropped even when day 0 is inside the
    window — the counterexample to the unrestricted claim.) -/
theorem filter_articles_by_date_inclusive (arts : List RawArticle)
    (sd ed : Int) (hpos : 0 < sd) (hle : sd ≤ ed) :
    WeChatScraper.filter_articles_by_date arts (some sd) (some ed)
      = arts.filter (fun a =>
          a.publish_timestamp != 0
          && decide (sd ≤ WeChatScraper.dateOfTimestamp a.publish_timestamp)
          && decide (WeChatScraper.dateOfTimestamp a.publish_timestamp ≤ ed))
    ∧ (∀ a, a ∈ arts → a.publish_timestamp = sd * 86400 →
        a ∈ WeChatScraper.filter_articles_by_date arts (some sd) (some ed))
    ∧ (∀ a, a ∈ arts → a.publish_timestamp = ed * 86400 + 86399 →
        a ∈ WeChatScraper.filter_articles_by_date arts (some sd) (some ed))
    ∧ (∀ a : RawArticle, a.publish_timestamp = sd * 86400 - 1 →
        a ∉ WeChatScraper.filter_articles_by_date arts (some sd) (some ed))
    ∧ (∀ a : RawArticle, a.publish_timestamp = (ed + 1) * 86400 →
        a ∉ WeChatScraper.filter_articles_by_date arts (some sd) (some ed)) := by
  have hsub : WeChatScraper.filter_articles_by_date arts (some sd) (some ed)
      = arts.filter (fun a =>
          a.publish_timestamp != 0
          && decide (sd ≤ WeChatScraper.dateOfTimestamp a.publish_timestamp)
          && decide (WeChatScraper.dateOfTimestamp a.publish_timestamp ≤ ed)) := by
    unfold WeChatScraper.filter_articles_by_date
    rw [if_neg (by simp)]
    apply List.filter_congr
    intro a _
    simp [not_lt]
  refine ⟨hsub, ?_, ?_, ?_, ?_⟩
  · intro a ha hts
    rw [hsub]
    refine List.mem_filter.mpr ⟨ha, ?_⟩
    have hd : WeChatScraper.dateOfTimestamp a.publish_timestamp = sd := by
      rw [hts]
      simpa using dateOfTimestamp_mul_add sd 0 (by norm_num) (by norm_num)
    have hne : a.publish_timestamp ≠ 0 := by
      rw [hts]; intro h; omega
    simp [hne, hd, hle]
  · intro a ha hts
    rw [hsub]
    refine List.mem_filter.mpr ⟨ha, ?_⟩
    have hd : WeChatScraper.dateOfTimestamp a.publish_timestamp = ed := by
      rw [hts]
      exact dateOfTimestamp_mul_add ed 86399 (by norm_num) (by norm_num)
    have hne : a.publish_timestamp ≠ 0 := by
      rw [hts]; intro h; omega
    simp [hne, hd, hle]
  · intro a hts hmem
    rw [hsub] at hmem
    have hp := (List.mem_filter.mp hmem).2
    have hd : WeChatScraper.dateOfTimestamp a.publish_timestamp = sd - 1 := by
      rw [hts]
      have heq : sd * 86400 - 1 = (sd - 1) * 86400 + 86399 := by ring
      rw [heq]
      exact dateOfTimestamp_mul_add (sd - 1) 86399 (by norm_num) (by norm_num)
    simp only [hd, Bool.and_eq_true, decide_eq_true_eq] at hp
    omega
  · intro a hts hmem
    rw [hsub] at hmem
    have hp := (List.mem_filter.mp hmem).2
    have hd : WeChatScraper.dateOfTimestamp a.publish_timestamp = ed + 1 := by
      rw [hts]
      simpa using dateOfTimestamp_mul_add (ed + 1) 0 (by norm_num) (by norm_num)
    simp only [hd, Bool.and_eq_true, decide_eq_true_eq] at hp
    omega

/-- C7 amended, witness: the article stamped day 1 at 00:00:00 is kept by the
    window of days 1 to 2. -/
theorem filter_articles_by_date_inclusive_witness :
    artStart ∈ WeChatScraper.filter_articles_by_date [artStart] (some 1)
      (some 2) :=
  (filter_articles_by_date_inclusive [artStart] 1 2 (by decide)
    (by decide)).2.1 artStart (by decide) (by decide)

/-- C8: for identical state and identical arguments the two backends return
    the very same article list; that list is sorted by publish_timestamp
    descending; and limit plus offset merely paginate the full sorted result
    (offset skipped, then limit taken, both after the sort). -/
theorem get_articles_backend_equivalence (st : DBState) (aid : Option Nat)
    (pf : Option String) (sd ed : Option Int) (kws : Option (List String))
    (lim off : Nat) :
    SQLiteDatabase.get_articles st aid pf sd ed kws lim off
      = DatabaseORM.get_articles st aid pf sd ed kws lim off
    ∧ List.Sorted tsDesc (SQLiteDatabase.get_articles st aid pf sd ed kws lim off)
    ∧ SQLiteDatabase.get_articles st aid pf sd ed kws lim off
      = ((SQLiteDatabase.get_articles st aid pf sd ed kws st.articles.length
          0).drop off).take lim := by
  have hfilt : st.articles.filter (DatabaseORM.rowPasses st aid pf sd ed kws)
      = st.articles.filter (SQLiteDatabase.rowPasses st aid pf sd ed kws) :=
    List.filter_congr (fun a _ => rowPasses_eq st aid pf sd ed kws a)
  refine ⟨?_, ?_, ?_⟩
  · unfold SQLiteDatabase.get_articles DatabaseORM.get_articles
    rw [hfilt]
  · have hs : List.Sorted tsDesc (List.insertionSort tsDesc
        (st.articles.filter (SQLiteDatabase.rowPasses st aid pf sd ed kws))) :=
      List.sorted_insertionSort tsDesc _
    exact List.Pairwise.sublist
      (List.Sublist.trans (List.take_sublist _ _) (List.drop_sublist _ _)) hs
  · unfold SQLiteDatabase.get_articles
    have hfull : List.take st.articles.length
        (List.insertionSort tsDesc
          (st.articles.filter (SQLiteDatabase.rowPasses st aid pf sd ed kws)))
        = List.insertionSort tsDesc
            (st.articles.filter (SQLiteDatabase.rowPasses st aid pf sd ed kws)) :=
      List.take_of_length_le (by
        rw [List.length_insertionSort]
        exact List.length_filter_le _ st.articles)
    rw [List.drop_zero, hfull]

example : daysFromCivil 1970 1 1 = 0 := by decide
example : daysFromCivil 2024 1 15 = 19737 := by decide
example : strptimeYmdHms "2024-01-15 12:30:45" = some 1705321845 := by decide
example : strptimeYmdHms "" = none := by rfl
example : strptimeYmdHms "not a date" = none := by rfl
example : strptimeYmdHms "2024-02-30 00:00:00" = none := by decide
example : strptimeYmdHms "999-12-31 10:00:00" = none := by decide
example : strptimeYmdHms "2024-01- 5 10:00:00" = some 1704448800 := by decide
example : strptimeYmdHms "2024-1-5 10:00:00" = some 1704448800 := by decide
example : strptimeYmdHms "2024-01-15  10:00:00" = some 1705312800 := by decide
example : strptimeYmdHms "2024-01-15\t10:00:00" = some 1705312800 := by decide
example : strptimeYmdHms "0000-01-01 00:00:00" = none := by decide
example : strptimeYmdHms "2024-13-01 00:00:00" = none := by decide
example : strptimeYmdHms "2024-01-32 00:00:00" = none := by decide
example : strptimeYmdHms "2024-01-00 00:00:00" = none := by decide
example : strptimeYmdHms "2024-01-15 24:00:00" = none := by decide
example : strptimeYmdHms "2024-01-15 10:00:61" = none := by decide
example : strptimeYmdHms "2024-01-15 10:00:00 " = none := by decide

end WeMediaSpider
